import Mathlib

/-!
# DP3 direction-dependent calibration: the `Constraint` base class

A shallow embedding of `ddecal/constraints/Constraint.h` and of the interface
declared in `ddecal/SolverFactory.h`.

Conventions of the embedding.

* `size_t` and `uint32_t` values are natural numbers.  The only arithmetic the
  class performs is the `std::accumulate` in `Initialize`, whose accumulator
  has the type of the literal `0u` (`unsigned int`, 32 bits); that sum is
  reduced modulo `2^32` at every step.  All other members are plain copies.
* A member function that can abort on an `assert` returns an `Option`:
  `none` is the failed assertion.  `Initialize_NDEBUG` is the same member with
  the assertions compiled out.
* `std::vector::operator[]` does not check its index.  An access past the end
  has no defined value; `GetSubSolutions` returns `none` there.
* A `double` is an IEEE-754 binary64 datum, given by its three bit fields.
-/

namespace dp3
namespace ddecal

/-! ## Numeric types -/

/-- Number of values of a `uint32_t` / `unsigned int`. -/
def UINT32_MODULUS : Nat := 4294967296

/-- An IEEE-754 binary64 value (`double`): sign bit, 11-bit biased exponent and
52-bit fraction field. -/
structure Double where
  sign : Bool
  exponent : Fin 2048
  fraction : Fin 4503599627370496
deriving DecidableEq, Repr

namespace Double

/-- A binary64 datum is a NaN when the exponent field is all ones and the
fraction field is not zero. -/
def IsNaN (x : Double) : Prop := x.exponent.val = 2047 ∧ x.fraction.val ≠ 0

/-- A binary64 datum is an infinity when the exponent field is all ones and the
fraction field is zero. -/
def IsInf (x : Double) : Prop := x.exponent.val = 2047 ∧ x.fraction.val = 0

/-- A finite number in the sense of IEEE-754: neither a NaN nor an infinity. -/
def IsFiniteNumber (x : Double) : Prop := ¬ x.IsNaN ∧ ¬ x.IsInf

instance (x : Double) : Decidable x.IsNaN := by
  unfold IsNaN; infer_instance

instance (x : Double) : Decidable x.IsInf := by
  unfold IsInf; infer_instance

instance (x : Double) : Decidable x.IsFiniteNumber := by
  unfold IsFiniteNumber; infer_instance

/-- The value `1.0`. -/
def one : Double := ⟨false, 1023, 0⟩

/-- The value `2.0`. -/
def two : Double := ⟨false, 1024, 0⟩

/-- Positive infinity. -/
def inf : Double := ⟨false, 2047, 0⟩

/-- A quiet NaN. -/
def nan : Double := ⟨false, 2047, 2251799813685248⟩

end Double

/-- The library function `std::isfinite` on a `double`: true unless the
exponent field is all ones. -/
def std_isfinite (x : Double) : Bool := x.exponent.val != 2047

/-- The type `std::complex<double>` (`Constraint::dcomplex`). -/
structure dcomplex where
  real : Double
  imag : Double
deriving DecidableEq, Repr

/-- The algorithm `std::accumulate(first, last, init)` instantiated at
`unsigned int`: the accumulator starts at `init` and every step adds one
element in 32-bit unsigned arithmetic. -/
def accumulate (xs : List Nat) (init : Nat) : Nat :=
  xs.foldl (fun acc x => (acc + x) % UINT32_MODULUS) init

/-! ## The class `Constraint` -/

/-- The private data members of `Constraint`. -/
structure Constraint where
  n_antennas_ : Nat
  n_channel_blocks_ : Nat
  n_sub_solutions_ : Nat
  solutions_per_direction_ : List Nat
deriving DecidableEq, Repr

namespace Constraint

/-- A freshly constructed `Constraint`: the default member initialisers
`n_antennas_ = 0`, `n_channel_blocks_ = 0`, `n_sub_solutions_ = 0` and an
empty `solutions_per_direction_`. -/
def fresh : Constraint :=
  { n_antennas_ := 0
    n_channel_blocks_ := 0
    n_sub_solutions_ := 0
    solutions_per_direction_ := [] }

/-- The member `Constraint::Initialize` of the base class, with assertions
enabled.  The three argument assertions come first, then the four
assignments, then the assertion on the accumulated total. -/
def Initialize (c : Constraint) (n_antennas : Nat)
    (solutions_per_direction : List Nat) (frequencies : List Double) :
    Option Constraint :=
  if n_antennas = 0 then none
  else if solutions_per_direction.isEmpty then none
  else if frequencies.isEmpty then none
  else
    let c1 := { c with n_antennas_ := n_antennas }
    let c2 := { c1 with solutions_per_direction_ := solutions_per_direction }
    let c3 := { c2 with n_channel_blocks_ := frequencies.length }
    let c4 := { c3 with n_sub_solutions_ := accumulate solutions_per_direction 0 }
    if c4.n_sub_solutions_ = 0 then none else some c4

/-- The accessor `Constraint::NAntennas`. -/
def NAntennas (c : Constraint) : Nat := c.n_antennas_

/-- The accessor `Constraint::NDirections`. -/
def NDirections (c : Constraint) : Nat := c.solutions_per_direction_.length

/-- The accessor `Constraint::NSubSolutions`. -/
def NSubSolutions (c : Constraint) : Nat := c.n_sub_solutions_

/-- The accessor `Constraint::NChannelBlocks`. -/
def NChannelBlocks (c : Constraint) : Nat := c.n_channel_blocks_

/-- The accessor `Constraint::GetSubSolutions`: the unchecked element access
`solutions_per_direction_[direction]`. -/
def GetSubSolutions (c : Constraint) (direction : Nat) : Option Nat :=
  c.solutions_per_direction_[direction]?

/-- The default `Constraint::Satisfied`. -/
def Satisfied (_c : Constraint) : Bool := true

/-- The default `Constraint::PrepareIteration`: an empty body. -/
def PrepareIteration (c : Constraint) (_hasReachedPrecision : Bool)
    (_iteration : Nat) (_finalIter : Bool) : Constraint := c

/-- The default `Constraint::SetWeights`: an empty body. -/
def SetWeights (c : Constraint) (_weights : List Double) : Constraint := c

/-- The default `Constraint::SetSubSolutionWeights`: an empty body. -/
def SetSubSolutionWeights (c : Constraint)
    (_solution_weights : List (List Double)) : Constraint := c

/-- The default `Constraint::GetTimings`, a `const` member with an empty
body: given the object and the contents of the output stream, it returns both
as they were. -/
def GetTimings (c : Constraint) (os : List Char) (_duration : Double) :
    Constraint × List Char := (c, os)

/-- The static member `Constraint::isfinite`. -/
def isfinite (value : dcomplex) : Bool :=
  std_isfinite value.real && std_isfinite value.imag

end Constraint

/-- Two constraint objects show the same bookkeeping through the accessors
`NAntennas`, `NDirections`, `NSubSolutions`, `NChannelBlocks` and
`GetSubSolutions`. -/
def Constraint.SameDimensions (a b : Constraint) : Prop :=
  a.NAntennas = b.NAntennas ∧ a.NDirections = b.NDirections ∧
    a.NSubSolutions = b.NSubSolutions ∧ a.NChannelBlocks = b.NChannelBlocks ∧
    ∀ d : Nat, a.GetSubSolutions d = b.GetSubSolutions d

/-! ## Sequences of operations on one constraint -/

/-- A call of one of the public members of the base class, with its
arguments. -/
inductive Operation where
  | Initialize (n_antennas : Nat) (solutions_per_direction : List Nat)
      (frequencies : List Double)
  | SetWeights (weights : List Double)
  | SetSubSolutionWeights (solution_weights : List (List Double))
  | PrepareIteration (hasReachedPrecision : Bool) (iteration : Nat)
      (finalIter : Bool)
  | Satisfied
  | GetTimings (os : List Char) (duration : Double)
  | NAntennas
  | NDirections
  | NSubSolutions
  | NChannelBlocks
  | GetSubSolutions (direction : Nat)
deriving DecidableEq, Repr

/-- Whether the call is a call of `Initialize`. -/
def Operation.isInitialize : Operation → Bool
  | Operation.Initialize _ _ _ => true
  | _ => false

/-- The object after one call, or `none` when the call does not return: a
failed assertion in `Initialize`, or an element access past the end in
`GetSubSolutions`.  The `const` members leave the object as it is. -/
def Constraint.step (c : Constraint) : Operation → Option Constraint
  | Operation.Initialize n_antennas solutions_per_direction frequencies =>
    c.Initialize n_antennas solutions_per_direction frequencies
  | Operation.SetWeights weights => some (c.SetWeights weights)
  | Operation.SetSubSolutionWeights solution_weights =>
    some (c.SetSubSolutionWeights solution_weights)
  | Operation.PrepareIteration hasReachedPrecision iteration finalIter =>
    some (c.PrepareIteration hasReachedPrecision iteration finalIter)
  | Operation.Satisfied => some c
  | Operation.GetTimings os duration => some (c.GetTimings os duration).1
  | Operation.NAntennas => some c
  | Operation.NDirections => some c
  | Operation.NSubSolutions => some c
  | Operation.NChannelBlocks => some c
  | Operation.GetSubSolutions direction =>
    match c.GetSubSolutions direction with
    | none => none
    | some _ => some c

/-- The object after a sequence of calls, made one after the other. -/
def Constraint.run (c : Constraint) : List Operation → Option Constraint
  | [] => some c
  | op :: rest =>
    match c.step op with
    | none => none
    | some c' => c'.run rest

/-! ## The same class compiled with `NDEBUG`

With `NDEBUG` defined, `assert` expands to nothing: `Initialize` keeps its four
assignments and always returns. -/

/-- The member `Constraint::Initialize` as compiled with `NDEBUG`: the four
assignments, without the assertions. -/
def Constraint.Initialize_NDEBUG (c : Constraint) (n_antennas : Nat)
    (solutions_per_direction : List Nat) (frequencies : List Double) :
    Constraint :=
  let c1 := { c with n_antennas_ := n_antennas }
  let c2 := { c1 with solutions_per_direction_ := solutions_per_direction }
  let c3 := { c2 with n_channel_blocks_ := frequencies.length }
  { c3 with n_sub_solutions_ := accumulate solutions_per_direction 0 }

/-- The object after one call when the class is compiled with `NDEBUG`, or
`none` for an element access past the end in `GetSubSolutions`. -/
def Constraint.step_NDEBUG (c : Constraint) : Operation → Option Constraint
  | Operation.Initialize n_antennas solutions_per_direction frequencies =>
    some (c.Initialize_NDEBUG n_antennas solutions_per_direction frequencies)
  | op => c.step op

/-- The object after a sequence of calls when the class is compiled with
`NDEBUG`. -/
def Constraint.run_NDEBUG (c : Constraint) : List Operation → Option Constraint
  | [] => some c
  | op :: rest =>
    match c.step_NDEBUG op with
    | none => none
    | some c' => c'.run_NDEBUG rest

/-! ## Wiring the constraints of a solver

`SolverFactory.h` declares `InitializeSolverConstraints` and forward-declares
`Settings` and `SolverBase`; the bodies live in files that are not part of the
sources at hand.  The comment of the declaration says that the function
initializes all constraints of the given solver, which may have constraints
already. -/

/-- Modelled from the spec: the class `base::Direction` of
`dp3/base/Direction.h`, a source position in right ascension and
declination. -/
structure Direction where
  ra : Double
  dec : Double
deriving DecidableEq, Repr

/-- Modelled from the spec: the class `Settings`, forward-declared only.  Kept
are the two things the constraint wiring reads from it: the ordered list of
constraints implied by the settings, as constructed, and the number of
sub-solutions of each direction. -/
structure Settings where
  constraints : List Constraint
  solutions_per_direction : List Nat
deriving DecidableEq, Repr

/-- Modelled from the spec: the class `SolverBase`, forward-declared only.
Kept is the ordered list of constraints registered on the solver. -/
structure SolverBase where
  constraints : List Constraint
deriving DecidableEq, Repr

/-- Modelled from the spec: the loop of `InitializeSolverConstraints` that
calls `Initialize` on each constraint in turn with the same dimensions, and
fails as soon as one of these calls fails. -/
def InitializeEach (n_antennas : Nat) (solutions_per_direction : List Nat)
    (frequencies : List Double) : List Constraint → Option (List Constraint)
  | [] => some []
  | c :: rest =>
    match c.Initialize n_antennas solutions_per_direction frequencies with
    | none => none
    | some c' =>
      match InitializeEach n_antennas solutions_per_direction frequencies rest with
      | none => none
      | some rest' => some (c' :: rest')

/-- Modelled from the spec: the function `InitializeSolverConstraints`, of
which `SolverFactory.h` holds the declaration only.  Mismatched lengths of
`antenna_positions` and `antenna_names` are a fatal precondition violation
(sections 7 and 8 of the spec: the call must fail rather than truncate); what
section 4.2 leaves to the caller is the order of the antennas.  Otherwise the
constraints the solver already has, followed by the ordered list of
constraints implied by `settings`, are each initialized with the number of
antennas, the per-direction sub-solution counts and the channel-block
frequencies, and are the constraints registered on the solver afterwards, in
that order. -/
def InitializeSolverConstraints (solver : SolverBase) (settings : Settings)
    (antenna_positions : List (Double × Double × Double))
    (antenna_names : List String) (_source_positions : List Direction)
    (frequencies : List Double) : Option SolverBase :=
  if antenna_positions.length ≠ antenna_names.length then none
  else
    match InitializeEach antenna_names.length settings.solutions_per_direction
        frequencies (solver.constraints ++ settings.constraints) with
    | none => none
    | some initialized => some { solver with constraints := initialized }

/-! ## General lemmas -/

theorem accumulate_eq_mod (xs : List Nat) (init : Nat) (h : init < UINT32_MODULUS) :
    accumulate xs init = (init + xs.sum) % UINT32_MODULUS := by
  induction xs generalizing init with
  | nil => simp [accumulate, Nat.mod_eq_of_lt h]
  | cons x xs ih =>
    have hlt : (init + x) % UINT32_MODULUS < UINT32_MODULUS :=
      Nat.mod_lt _ (by decide)
    have step : accumulate (x :: xs) init
        = accumulate xs ((init + x) % UINT32_MODULUS) := rfl
    rw [step, ih _ hlt, List.sum_cons, Nat.mod_add_mod, Nat.add_assoc]

theorem accumulate_zero (xs : List Nat) :
    accumulate xs 0 = xs.sum % UINT32_MODULUS := by
  rw [accumulate_eq_mod xs 0 (by decide), Nat.zero_add]

/-- A successful `Initialize` passed all four assertions and returns the
object with the four members assigned. -/
theorem Constraint.Initialize_eq_some (c c' : Constraint) (n : Nat)
    (spd : List Nat) (fr : List Double) (h : c.Initialize n spd fr = some c') :
    n ≠ 0 ∧ spd ≠ [] ∧ fr ≠ [] ∧ accumulate spd 0 ≠ 0 ∧
      c' = { n_antennas_ := n
             n_channel_blocks_ := fr.length
             n_sub_solutions_ := accumulate spd 0
             solutions_per_direction_ := spd } := by
  unfold Constraint.Initialize at h
  by_cases h1 : n = 0
  · simp [h1] at h
  by_cases h2 : spd.isEmpty = true
  · simp [h1, h2] at h
  by_cases h3 : fr.isEmpty = true
  · simp [h1, h2, h3] at h
  by_cases h4 : accumulate spd 0 = 0
  · simp [h1, h2, h3, h4] at h
  simp only [h1, h2, h3, h4, if_false, Bool.false_eq_true, Option.some.injEq] at h
  refine ⟨h1, ?_, ?_, h4, h.symm⟩
  · intro e; simp [e] at h2
  · intro e; simp [e] at h3

theorem InitializeEach_eq_some (n : Nat) (spd : List Nat) (fr : List Double)
    (cs out : List Constraint) (h : InitializeEach n spd fr cs = some out) :
    out.length = cs.length ∧ ∀ c ∈ out, c.NAntennas = n := by
  induction cs generalizing out with
  | nil =>
    simp only [InitializeEach, Option.some.injEq] at h
    subst h
    simp
  | cons c rest ih =>
    unfold InitializeEach at h
    cases hc : c.Initialize n spd fr with
    | none => simp [hc] at h
    | some c' =>
      cases hr : InitializeEach n spd fr rest with
      | none => simp [hc, hr] at h
      | some rest' =>
        simp only [hc, hr, Option.some.injEq] at h
        subst h
        obtain ⟨hlen, hall⟩ := ih rest' hr
        obtain ⟨-, -, -, -, rfl⟩ := Constraint.Initialize_eq_some c c' _ _ _ hc
        refine ⟨by simp [hlen], ?_⟩
        intro x hx
        rcases List.mem_cons.mp hx with rfl | hx
        · rfl
        · exact hall x hx

/-! ## Initialisation -/

/-- C1: for every `n_antennas != 0`, non-empty `solutions_per_direction` and
non-empty `frequencies` for which `Initialize` succeeds, afterwards
`NAntennas()` is `n_antennas`, `NDirections()` is the length of
`solutions_per_direction` and `NChannelBlocks()` is the length of
`frequencies`. -/
theorem Constraint.Initialize_dimensions (c c' : Constraint) (n_antennas : Nat)
    (solutions_per_direction : List Nat) (frequencies : List Double)
    (_hn : n_antennas ≠ 0) (_hs : solutions_per_direction ≠ [])
    (_hf : frequencies ≠ [])
    (h : c.Initialize n_antennas solutions_per_direction frequencies = some c') :
    c'.NAntennas = n_antennas ∧
      c'.NDirections = solutions_per_direction.length ∧
      c'.NChannelBlocks = frequencies.length := by
  obtain ⟨-, -, -, -, rfl⟩ := Constraint.Initialize_eq_some c c' _ _ _ h
  exact ⟨rfl, rfl, rfl⟩

/-- Three antennas, two directions with one and two sub-solutions, four
channel blocks. -/
theorem Constraint.Initialize_dimensions_witness :
    (3 ≠ 0 ∧ [1, 2] ≠ ([] : List Nat) ∧
      [Double.one, Double.one, Double.one, Double.one] ≠ [] ∧
      Constraint.fresh.Initialize 3 [1, 2]
        [Double.one, Double.one, Double.one, Double.one]
        = some ⟨3, 4, 3, [1, 2]⟩) ∧
    (Constraint.NAntennas ⟨3, 4, 3, [1, 2]⟩ = 3 ∧
      Constraint.NDirections ⟨3, 4, 3, [1, 2]⟩ = [1, 2].length ∧
      Constraint.NChannelBlocks ⟨3, 4, 3, [1, 2]⟩
        = [Double.one, Double.one, Double.one, Double.one].length) :=
  ⟨⟨by decide, by decide, by decide, by decide⟩,
    Constraint.Initialize_dimensions Constraint.fresh ⟨3, 4, 3, [1, 2]⟩ 3 [1, 2]
      [Double.one, Double.one, Double.one, Double.one]
      (by decide) (by decide) (by decide) (by decide)⟩

/-- C2: at one antenna, `solutions_per_direction = [4294967295, 2]` and one
channel block, `Initialize` succeeds and `NSubSolutions()` is `1`, whereas the
entries sum to `4294967297`: the 32-bit accumulator of `std::accumulate`
wrapped around. -/
theorem Constraint.NSubSolutions_wraps :
    Constraint.fresh.Initialize 1 [4294967295, 2] [Double.one]
        = some ⟨1, 1, 1, [4294967295, 2]⟩ ∧
      Constraint.NSubSolutions ⟨1, 1, 1, [4294967295, 2]⟩ = 1 ∧
      [4294967295, 2].sum = 4294967297 ∧
      Constraint.NSubSolutions ⟨1, 1, 1, [4294967295, 2]⟩
        ≠ [4294967295, 2].sum := by
  decide

/-- C3: with assertions enabled, `Initialize` fails whenever `n_antennas` is
zero, or `solutions_per_direction` is empty, or `frequencies` is empty, or the
entries of `solutions_per_direction` sum to zero. -/
theorem Constraint.Initialize_fails (c : Constraint) (n_antennas : Nat)
    (solutions_per_direction : List Nat) (frequencies : List Double)
    (h : n_antennas = 0 ∨ solutions_per_direction = [] ∨ frequencies = [] ∨
      solutions_per_direction.sum = 0) :
    c.Initialize n_antennas solutions_per_direction frequencies = none := by
  unfold Constraint.Initialize
  rcases h with h | h | h | h
  · simp [h]
  · simp [h]
  · simp [h]
  · have hz : accumulate solutions_per_direction 0 = 0 := by
      rw [accumulate_zero, h]; rfl
    simp [hz]

/-- Three antennas and one channel block, but two directions with no
sub-solutions at all. -/
theorem Constraint.Initialize_fails_witness :
    (3 = 0 ∨ [0, 0] = ([] : List Nat) ∨ [Double.one] = [] ∨ [0, 0].sum = 0) ∧
      Constraint.fresh.Initialize 3 [0, 0] [Double.one] = none :=
  ⟨by decide,
    Constraint.Initialize_fails Constraint.fresh 3 [0, 0] [Double.one]
      (by decide)⟩

/-! ## Accessors -/

/-- C4: after a successful `Initialize`, for every direction index
`d < NDirections()`, `GetSubSolutions(d)` returns the entry
`solutions_per_direction[d]`. -/
theorem Constraint.GetSubSolutions_after_Initialize (c c' : Constraint)
    (n_antennas : Nat) (solutions_per_direction : List Nat)
    (frequencies : List Double)
    (h : c.Initialize n_antennas solutions_per_direction frequencies = some c')
    (d : Nat) (hd : d < c'.NDirections) :
    ∃ hlt : d < solutions_per_direction.length,
      c'.GetSubSolutions d = some (solutions_per_direction.get ⟨d, hlt⟩) := by
  obtain ⟨-, -, -, -, rfl⟩ := Constraint.Initialize_eq_some c c' _ _ _ h
  refine ⟨hd, ?_⟩
  simp [Constraint.GetSubSolutions, List.getElem?_eq_getElem hd]

/-- The second of two directions, which has two sub-solutions. -/
theorem Constraint.GetSubSolutions_after_Initialize_witness :
    (Constraint.fresh.Initialize 3 [1, 2] [Double.one] = some ⟨3, 1, 3, [1, 2]⟩ ∧
      1 < Constraint.NDirections ⟨3, 1, 3, [1, 2]⟩) ∧
    ∃ hlt : 1 < [1, 2].length,
      Constraint.GetSubSolutions ⟨3, 1, 3, [1, 2]⟩ 1
        = some (([1, 2] : List Nat).get ⟨1, hlt⟩) :=
  ⟨⟨by decide, by decide⟩,
    Constraint.GetSubSolutions_after_Initialize Constraint.fresh
      ⟨3, 1, 3, [1, 2]⟩ 3 [1, 2] [Double.one] (by decide) 1 (by decide)⟩

/-- C5: on a freshly constructed `Constraint`, `NAntennas()`, `NDirections()`,
`NSubSolutions()` and `NChannelBlocks()` all return zero. -/
theorem Constraint.fresh_accessors_zero :
    Constraint.fresh.NAntennas = 0 ∧ Constraint.fresh.NDirections = 0 ∧
      Constraint.fresh.NSubSolutions = 0 ∧ Constraint.fresh.NChannelBlocks = 0 :=
  ⟨rfl, rfl, rfl, rfl⟩

/-- C6, as stated, fails: on a freshly constructed `Constraint` the index `0`
is not below `NDirections()`, and `GetSubSolutions(0)` reads past the end of
the stored list, so it yields neither zero nor any other value. -/
theorem Constraint.GetSubSolutions_fresh_not_default :
    ¬ (0 < Constraint.fresh.NDirections) ∧
      Constraint.fresh.GetSubSolutions 0 ≠ some 0 ∧
      ¬ ∃ v, Constraint.fresh.GetSubSolutions 0 = some v := by
  refine ⟨by decide, by decide, ?_⟩
  rintro ⟨v, hv⟩
  exact Option.noConfusion hv

/-- C6, amended: before `Initialize` the stored per-direction list is empty,
so `NDirections()` is zero and, for every direction index,
`GetSubSolutions(direction)` is an access past the end of that list, with no
defined value. -/
theorem Constraint.GetSubSolutions_fresh_out_of_range (direction : Nat) :
    Constraint.fresh.NDirections = 0 ∧
      ¬ (direction < Constraint.fresh.NDirections) ∧
      Constraint.fresh.GetSubSolutions direction = none :=
  ⟨rfl, Nat.not_lt_zero direction, rfl⟩

/-! ## Finiteness of complex values -/

/-- C7: `isfinite(value)` is true exactly when the real part and the imaginary
part are both finite numbers; it is false as soon as one component is an
infinity or a NaN.  The boundary table: (finite, finite) gives true,
(NaN, finite), (finite, infinity) and (NaN, NaN) give false. -/
theorem Constraint.isfinite_iff (value : dcomplex) :
    (Constraint.isfinite value = true ↔
        value.real.IsFiniteNumber ∧ value.imag.IsFiniteNumber) ∧
      (value.real.IsNaN ∨ value.real.IsInf ∨ value.imag.IsNaN ∨ value.imag.IsInf →
        Constraint.isfinite value = false) ∧
      (∀ x y : Double, x.IsFiniteNumber → y.IsFiniteNumber →
        Constraint.isfinite ⟨x, y⟩ = true) ∧
      (∀ x y : Double, x.IsNaN → y.IsFiniteNumber →
        Constraint.isfinite ⟨x, y⟩ = false) ∧
      (∀ x y : Double, x.IsFiniteNumber → y.IsInf →
        Constraint.isfinite ⟨x, y⟩ = false) ∧
      (∀ x y : Double, x.IsNaN → y.IsNaN →
        Constraint.isfinite ⟨x, y⟩ = false) := by
  have key : ∀ x : Double, std_isfinite x = true ↔ x.IsFiniteNumber := by
    intro x
    unfold std_isfinite Double.IsFiniteNumber Double.IsNaN Double.IsInf
    constructor
    · intro h
      have hne : x.exponent.val ≠ 2047 := by simpa using h
      exact ⟨fun hn => hne hn.1, fun hi => hne hi.1⟩
    · rintro ⟨hn, hi⟩
      have hne : x.exponent.val ≠ 2047 := by
        intro he
        by_cases hf : x.fraction.val = 0
        · exact hi ⟨he, hf⟩
        · exact hn ⟨he, hf⟩
      simpa using hne
  have nan_false : ∀ x : Double, x.IsNaN → std_isfinite x = false := by
    intro x hx
    cases hb : std_isfinite x with
    | false => rfl
    | true => exact absurd hx ((key x).mp hb).1
  have inf_false : ∀ x : Double, x.IsInf → std_isfinite x = false := by
    intro x hx
    cases hb : std_isfinite x with
    | false => rfl
    | true => exact absurd hx ((key x).mp hb).2
  refine ⟨?_, ?_, ?_, ?_, ?_, ?_⟩
  · simp only [Constraint.isfinite, Bool.and_eq_true, key]
  · rintro (h | h | h | h)
    · simp [Constraint.isfinite, nan_false _ h]
    · simp [Constraint.isfinite, inf_false _ h]
    · simp [Constraint.isfinite, nan_false _ h]
    · simp [Constraint.isfinite, inf_false _ h]
  · intro x y hx hy
    simp [Constraint.isfinite, (key x).mpr hx, (key y).mpr hy]
  · intro x y hx _
    simp [Constraint.isfinite, nan_false _ hx]
  · intro x y _ hy
    simp [Constraint.isfinite, inf_false _ hy]
  · intro x y hx _
    simp [Constraint.isfinite, nan_false _ hx]

/-- The four rows of the boundary table at `1.0`, a quiet NaN and positive
infinity. -/
theorem Constraint.isfinite_iff_witness :
    (Double.one.IsFiniteNumber ∧ Double.nan.IsNaN ∧ Double.inf.IsInf) ∧
      Constraint.isfinite ⟨Double.one, Double.one⟩ = true ∧
      Constraint.isfinite ⟨Double.nan, Double.one⟩ = false ∧
      Constraint.isfinite ⟨Double.one, Double.inf⟩ = false ∧
      Constraint.isfinite ⟨Double.nan, Double.nan⟩ = false :=
  ⟨⟨by decide, by decide, by decide⟩,
    (Constraint.isfinite_iff ⟨Double.one, Double.one⟩).2.2.1
      Double.one Double.one (by decide) (by decide),
    (Constraint.isfinite_iff ⟨Double.nan, Double.one⟩).2.1
      (Or.inl (by decide)),
    (Constraint.isfinite_iff ⟨Double.one, Double.inf⟩).2.2.2.2.1
      Double.one Double.inf (by decide) (by decide),
    (Constraint.isfinite_iff ⟨Double.nan, Double.nan⟩).2.2.2.2.2
      Double.nan Double.nan (by decide) (by decide)⟩

/-! ## Default member functions -/

/-- C8: the default `Satisfied()` returns true in every state of the base
bookkeeping: on a freshly constructed constraint, right after a successful
`Initialize`, and with no call of `Apply` before. -/
theorem Constraint.Satisfied_always (c : Constraint) :
    c.Satisfied = true ∧ Constraint.fresh.Satisfied = true ∧
      ∀ (n_antennas : Nat) (solutions_per_direction : List Nat)
        (frequencies : List Double) (c' : Constraint),
        c.Initialize n_antennas solutions_per_direction frequencies = some c' →
        c'.Satisfied = true :=
  ⟨rfl, rfl, fun _ _ _ _ _ => rfl⟩

/-- A constraint initialised with three antennas, directions `[1, 2]` and four
channel blocks reports satisfied at once. -/
theorem Constraint.Satisfied_always_witness :
    Constraint.fresh.Initialize 3 [1, 2]
        [Double.one, Double.one, Double.one, Double.one]
        = some ⟨3, 4, 3, [1, 2]⟩ ∧
      Constraint.Satisfied ⟨3, 4, 3, [1, 2]⟩ = true :=
  ⟨by decide,
    (Constraint.Satisfied_always Constraint.fresh).2.2 3 [1, 2]
      [Double.one, Double.one, Double.one, Double.one] ⟨3, 4, 3, [1, 2]⟩
      (by decide)⟩

/-- C9: the default `SetWeights`, `SetSubSolutionWeights`, `PrepareIteration`
and `GetTimings` are no-ops: for every argument and every state they return
and leave `NAntennas`, `NDirections`, `NSubSolutions`, `NChannelBlocks` and
every `GetSubSolutions(d)` as they were, and `GetTimings` writes nothing; so
setting flat weights and then sub-solution weights leaves the state that
setting only the sub-solution weights leaves. -/
theorem Constraint.default_members_noop (c : Constraint) (weights : List Double)
    (solution_weights : List (List Double)) (hasReachedPrecision : Bool)
    (iteration : Nat) (finalIter : Bool) (os : List Char) (duration : Double) :
    (c.SetWeights weights).SameDimensions c ∧
      (c.SetSubSolutionWeights solution_weights).SameDimensions c ∧
      (c.PrepareIteration hasReachedPrecision iteration finalIter).SameDimensions c ∧
      (c.GetTimings os duration).1.SameDimensions c ∧
      (c.GetTimings os duration).2 = os ∧
      (c.SetWeights weights).SetSubSolutionWeights solution_weights
        = c.SetSubSolutionWeights solution_weights :=
  ⟨⟨rfl, rfl, rfl, rfl, fun _ => rfl⟩, ⟨rfl, rfl, rfl, rfl, fun _ => rfl⟩,
    ⟨rfl, rfl, rfl, rfl, fun _ => rfl⟩, ⟨rfl, rfl, rfl, rfl, fun _ => rfl⟩,
    rfl, rfl⟩

/-! ## Every constraint of a solver gets the same number of antennas -/

/-- C10: when `antenna_positions` and `antenna_names` differ in length,
`InitializeSolverConstraints` fails; when the lengths agree and the call
succeeds, every constraint registered on the solver afterwards, those the
solver had before the call and those implied by the settings, has
`NAntennas()` equal to that common length. -/
theorem InitializeSolverConstraints_antennas (solver : SolverBase)
    (settings : Settings) (antenna_positions : List (Double × Double × Double))
    (antenna_names : List String) (source_positions : List Direction)
    (frequencies : List Double) :
    (antenna_positions.length ≠ antenna_names.length →
        InitializeSolverConstraints solver settings antenna_positions
          antenna_names source_positions frequencies = none) ∧
      (antenna_positions.length = antenna_names.length →
        ∀ solver' : SolverBase,
          InitializeSolverConstraints solver settings antenna_positions
            antenna_names source_positions frequencies = some solver' →
          solver'.constraints.length
              = solver.constraints.length + settings.constraints.length ∧
            ∀ c ∈ solver'.constraints, c.NAntennas = antenna_names.length ∧
              c.NAntennas = antenna_positions.length) := by
  constructor
  · intro hne
    simp [InitializeSolverConstraints, hne]
  · intro heq solver' h
    unfold InitializeSolverConstraints at h
    cases hr : InitializeEach antenna_names.length settings.solutions_per_direction
        frequencies (solver.constraints ++ settings.constraints) with
    | none => simp [heq, hr] at h
    | some initialized =>
      simp only [heq, ne_eq, not_true_eq_false, if_false, hr,
        Option.some.injEq] at h
      subst h
      obtain ⟨hlen, hall⟩ := InitializeEach_eq_some _ _ _ _ _ hr
      refine ⟨by simpa using hlen, fun c hc => ⟨hall c hc, ?_⟩⟩
      rw [heq]
      exact hall c hc

/-- A solver that already holds a constraint initialised for seven antennas,
and settings that imply one more constraint, wired for three antennas; and the
same call with only two antenna names for the three positions. -/
theorem InitializeSolverConstraints_antennas_witness :
    (([(Double.one, Double.one, Double.one), (Double.one, Double.one, Double.one),
          (Double.one, Double.one, Double.one)].length ≠ ["CS001", "CS002"].length ∧
        InitializeSolverConstraints ⟨[⟨7, 1, 1, [1]⟩]⟩ ⟨[Constraint.fresh], [1, 2]⟩
          [(Double.one, Double.one, Double.one), (Double.one, Double.one, Double.one),
            (Double.one, Double.one, Double.one)]
          ["CS001", "CS002"] [⟨Double.one, Double.one⟩, ⟨Double.one, Double.one⟩]
          [Double.one] = none) ∧
      ([(Double.one, Double.one, Double.one), (Double.one, Double.one, Double.one),
          (Double.one, Double.one, Double.one)].length
          = ["CS001", "CS002", "CS003"].length ∧
        InitializeSolverConstraints ⟨[⟨7, 1, 1, [1]⟩]⟩ ⟨[Constraint.fresh], [1, 2]⟩
          [(Double.one, Double.one, Double.one), (Double.one, Double.one, Double.one),
            (Double.one, Double.one, Double.one)]
          ["CS001", "CS002", "CS003"]
          [⟨Double.one, Double.one⟩, ⟨Double.one, Double.one⟩] [Double.one]
          = some ⟨[⟨3, 1, 3, [1, 2]⟩, ⟨3, 1, 3, [1, 2]⟩]⟩)) ∧
      (SolverBase.mk [⟨3, 1, 3, [1, 2]⟩, ⟨3, 1, 3, [1, 2]⟩]).constraints.length
          = (SolverBase.mk [⟨7, 1, 1, [1]⟩]).constraints.length
            + (Settings.mk [Constraint.fresh] [1, 2]).constraints.length ∧
        ∀ c ∈ (SolverBase.mk [⟨3, 1, 3, [1, 2]⟩, ⟨3, 1, 3, [1, 2]⟩]).constraints,
          c.NAntennas = ["CS001", "CS002", "CS003"].length ∧
            c.NAntennas
              = [(Double.one, Double.one, Double.one),
                  (Double.one, Double.one, Double.one),
                  (Double.one, Double.one, Double.one)].length :=
  ⟨⟨⟨by decide,
      (InitializeSolverConstraints_antennas ⟨[⟨7, 1, 1, [1]⟩]⟩
        ⟨[Constraint.fresh], [1, 2]⟩
        [(Double.one, Double.one, Double.one), (Double.one, Double.one, Double.one),
          (Double.one, Double.one, Double.one)]
        ["CS001", "CS002"] [⟨Double.one, Double.one⟩, ⟨Double.one, Double.one⟩]
        [Double.one]).1 (by decide)⟩,
      ⟨by decide, by decide⟩⟩,
    (InitializeSolverConstraints_antennas ⟨[⟨7, 1, 1, [1]⟩]⟩
      ⟨[Constraint.fresh], [1, 2]⟩
      [(Double.one, Double.one, Double.one), (Double.one, Double.one, Double.one),
        (Double.one, Double.one, Double.one)]
      ["CS001", "CS002", "CS003"]
      [⟨Double.one, Double.one⟩, ⟨Double.one, Double.one⟩] [Double.one]).2
      (by decide) ⟨[⟨3, 1, 3, [1, 2]⟩, ⟨3, 1, 3, [1, 2]⟩]⟩ (by decide)⟩

/-! ## The lifetime of an initialised constraint -/

theorem Constraint.Initialize_positive (c c' : Constraint) (n : Nat)
    (spd : List Nat) (fr : List Double) (h : c.Initialize n spd fr = some c') :
    0 < c'.NAntennas ∧ 0 < c'.NDirections ∧ 0 < c'.NSubSolutions ∧
      0 < c'.NChannelBlocks := by
  obtain ⟨hn, hs, hf, ha, rfl⟩ := Constraint.Initialize_eq_some c c' _ _ _ h
  exact ⟨Nat.pos_of_ne_zero hn, List.length_pos.mpr hs, Nat.pos_of_ne_zero ha,
    List.length_pos.mpr hf⟩

theorem Constraint.step_eq_self (c c' : Constraint) (op : Operation)
    (hop : op.isInitialize = false) (h : c.step op = some c') : c' = c := by
  cases op with
  | Initialize n spd fr => simp [Operation.isInitialize] at hop
  | GetSubSolutions d =>
    unfold Constraint.step at h
    cases hg : c.GetSubSolutions d with
    | none => simp [hg] at h
    | some v =>
      simp only [hg, Option.some.injEq] at h
      exact h.symm
  | _ =>
    simp only [Constraint.step, Option.some.injEq] at h
    exact h.symm

theorem Constraint.run_eq_self (ops : List Operation) (c c' : Constraint)
    (hops : ∀ op ∈ ops, op.isInitialize = false) (h : c.run ops = some c') :
    c' = c := by
  induction ops generalizing c with
  | nil =>
    simp only [Constraint.run, Option.some.injEq] at h
    exact h.symm
  | cons op rest ih =>
    unfold Constraint.run at h
    cases hs : c.step op with
    | none => simp [hs] at h
    | some c1 =>
      simp only [hs] at h
      have h1 : c1 = c :=
        Constraint.step_eq_self c c1 op (hops op (List.mem_cons_self _ _)) hs
      have h2 : c' = c1 :=
        ih c1 (fun o ho => hops o (List.mem_cons_of_mem _ ho)) h
      rw [h2, h1]

theorem Constraint.step_positive (c c' : Constraint) (op : Operation)
    (hc : 0 < c.NAntennas ∧ 0 < c.NDirections ∧ 0 < c.NSubSolutions ∧
      0 < c.NChannelBlocks)
    (h : c.step op = some c') :
    0 < c'.NAntennas ∧ 0 < c'.NDirections ∧ 0 < c'.NSubSolutions ∧
      0 < c'.NChannelBlocks := by
  cases hop : op.isInitialize with
  | false => rw [Constraint.step_eq_self c c' op hop h]; exact hc
  | true =>
    cases op with
    | Initialize n spd fr => exact Constraint.Initialize_positive c c' n spd fr h
    | _ => simp [Operation.isInitialize] at hop

/-- C12, as stated, fails in a build with `NDEBUG`: a constraint initialised
with three antennas, directions `[1, 2]` and four channel blocks, whose
`Initialize` is then called with no antenna, no direction and no frequency,
returns from that call with `NAntennas()`, `NDirections()`, `NSubSolutions()`
and `NChannelBlocks()` all zero. -/
theorem Constraint.invariants_break_with_NDEBUG :
    Constraint.fresh.Initialize 3 [1, 2]
        [Double.one, Double.one, Double.one, Double.one]
      = some ⟨3, 4, 3, [1, 2]⟩ ∧
    Constraint.fresh.Initialize_NDEBUG 3 [1, 2]
        [Double.one, Double.one, Double.one, Double.one]
      = ⟨3, 4, 3, [1, 2]⟩ ∧
    Constraint.run_NDEBUG ⟨3, 4, 3, [1, 2]⟩ [Operation.Initialize 0 [] []]
      = some ⟨0, 0, 0, []⟩ ∧
    ¬ (0 < Constraint.NAntennas ⟨0, 0, 0, []⟩) ∧
    ¬ (0 < Constraint.NDirections ⟨0, 0, 0, []⟩) ∧
    ¬ (0 < Constraint.NSubSolutions ⟨0, 0, 0, []⟩) ∧
    ¬ (0 < Constraint.NChannelBlocks ⟨0, 0, 0, []⟩) := by
  decide

/-- C12, amended: with assertions enabled, in every state reached from a
successful `Initialize` by a sequence of calls of `Initialize`, `SetWeights`,
`SetSubSolutionWeights`, `PrepareIteration`, `Satisfied`, `GetTimings` and the
accessors, the values of `NAntennas()`, `NDirections()`, `NSubSolutions()` and
`NChannelBlocks()` are all positive. -/
theorem Constraint.invariants_hold (c0 c c' : Constraint) (n_antennas : Nat)
    (solutions_per_direction : List Nat) (frequencies : List Double)
    (ops : List Operation)
    (hinit : c0.Initialize n_antennas solutions_per_direction frequencies = some c)
    (hrun : c.run ops = some c') :
    0 < c'.NAntennas ∧ 0 < c'.NDirections ∧ 0 < c'.NSubSolutions ∧
      0 < c'.NChannelBlocks := by
  have hc := Constraint.Initialize_positive c0 c _ _ _ hinit
  clear hinit
  induction ops generalizing c with
  | nil =>
    simp only [Constraint.run, Option.some.injEq] at hrun
    rw [← hrun]; exact hc
  | cons op rest ih =>
    unfold Constraint.run at hrun
    cases hs : c.step op with
    | none => simp [hs] at hrun
    | some c1 =>
      simp only [hs] at hrun
      exact ih c1 hrun (Constraint.step_positive c c1 op hc hs)

/-- An initialised constraint that gets weights, is prepared, is asked for a
direction, is initialised a second time with other dimensions and is then
asked whether it is satisfied. -/
theorem Constraint.invariants_hold_witness :
    (Constraint.fresh.Initialize 3 [1, 2]
          [Double.one, Double.one, Double.one, Double.one]
        = some ⟨3, 4, 3, [1, 2]⟩ ∧
      Constraint.run ⟨3, 4, 3, [1, 2]⟩
          [Operation.SetWeights [Double.one], Operation.PrepareIteration false 0 false,
            Operation.GetSubSolutions 1, Operation.Initialize 5 [4] [Double.two],
            Operation.Satisfied]
        = some ⟨5, 1, 4, [4]⟩) ∧
    (0 < Constraint.NAntennas ⟨5, 1, 4, [4]⟩ ∧
      0 < Constraint.NDirections ⟨5, 1, 4, [4]⟩ ∧
      0 < Constraint.NSubSolutions ⟨5, 1, 4, [4]⟩ ∧
      0 < Constraint.NChannelBlocks ⟨5, 1, 4, [4]⟩) :=
  ⟨⟨by decide, by decide⟩,
    Constraint.invariants_hold Constraint.fresh ⟨3, 4, 3, [1, 2]⟩ ⟨5, 1, 4, [4]⟩ 3
      [1, 2] [Double.one, Double.one, Double.one, Double.one]
      [Operation.SetWeights [Double.one], Operation.PrepareIteration false 0 false,
        Operation.GetSubSolutions 1, Operation.Initialize 5 [4] [Double.two],
        Operation.Satisfied]
      (by decide) (by decide)⟩

/-- C13, as stated, fails: a constraint initialised with three antennas,
directions `[1, 2]` and four channel blocks, and then initialised again with
five antennas, directions `[4]` and one channel block, reports the second set
of dimensions through every accessor. -/
theorem Constraint.Initialize_again_changes_dimensions :
    Constraint.fresh.Initialize 3 [1, 2]
        [Double.one, Double.one, Double.one, Double.one]
      = some ⟨3, 4, 3, [1, 2]⟩ ∧
    Constraint.step ⟨3, 4, 3, [1, 2]⟩ (Operation.Initialize 5 [4] [Double.two])
      = some ⟨5, 1, 4, [4]⟩ ∧
    Constraint.NAntennas ⟨5, 1, 4, [4]⟩ ≠ Constraint.NAntennas ⟨3, 4, 3, [1, 2]⟩ ∧
    Constraint.NDirections ⟨5, 1, 4, [4]⟩ ≠ Constraint.NDirections ⟨3, 4, 3, [1, 2]⟩ ∧
    Constraint.NSubSolutions ⟨5, 1, 4, [4]⟩
      ≠ Constraint.NSubSolutions ⟨3, 4, 3, [1, 2]⟩ ∧
    Constraint.NChannelBlocks ⟨5, 1, 4, [4]⟩
      ≠ Constraint.NChannelBlocks ⟨3, 4, 3, [1, 2]⟩ ∧
    Constraint.GetSubSolutions ⟨5, 1, 4, [4]⟩ 0
      ≠ Constraint.GetSubSolutions ⟨3, 4, 3, [1, 2]⟩ 0 := by
  decide

/-- C13, amended: after a first successful `Initialize`, no later operation
on the same constraint other than a further call of `Initialize` changes
`NAntennas()`, `NDirections()`, `NSubSolutions()`, `NChannelBlocks()` or any
`GetSubSolutions(d)`; a further successful call of `Initialize` replaces them
by the dimensions of its own arguments. -/
theorem Constraint.dimensions_fixed_between_Initialize (c0 c : Constraint)
    (n_antennas : Nat) (solutions_per_direction : List Nat)
    (frequencies : List Double)
    (_hinit : c0.Initialize n_antennas solutions_per_direction frequencies = some c) :
    (∀ (ops : List Operation) (c' : Constraint),
        (∀ op ∈ ops, op.isInitialize = false) → c.run ops = some c' →
        c'.SameDimensions c) ∧
      (∀ (n : Nat) (spd : List Nat) (fr : List Double) (c' : Constraint),
        c.step (Operation.Initialize n spd fr) = some c' →
        c'.NAntennas = n ∧ c'.NDirections = spd.length ∧
          c'.NSubSolutions = accumulate spd 0 ∧ c'.NChannelBlocks = fr.length ∧
          ∀ d : Nat, c'.GetSubSolutions d = spd[d]?) := by
  constructor
  · intro ops c' hops hrun
    rw [Constraint.run_eq_self ops c c' hops hrun]
    exact ⟨rfl, rfl, rfl, rfl, fun _ => rfl⟩
  · intro n spd fr c' h
    obtain ⟨-, -, -, -, rfl⟩ := Constraint.Initialize_eq_some c c' n spd fr h
    exact ⟨rfl, rfl, rfl, rfl, fun _ => rfl⟩

/-- An initialised constraint keeps its dimensions through weights, a
prepared iteration, a timing report and accessor calls. -/
theorem Constraint.dimensions_fixed_between_Initialize_witness :
    (Constraint.fresh.Initialize 3 [1, 2]
          [Double.one, Double.one, Double.one, Double.one]
        = some ⟨3, 4, 3, [1, 2]⟩ ∧
      (∀ op ∈ [Operation.SetWeights [Double.one],
            Operation.SetSubSolutionWeights [[Double.one], [Double.two]],
            Operation.PrepareIteration true 2 false, Operation.GetTimings [] Double.one,
            Operation.NDirections, Operation.GetSubSolutions 0],
          op.isInitialize = false) ∧
      Constraint.run ⟨3, 4, 3, [1, 2]⟩
          [Operation.SetWeights [Double.one],
            Operation.SetSubSolutionWeights [[Double.one], [Double.two]],
            Operation.PrepareIteration true 2 false, Operation.GetTimings [] Double.one,
            Operation.NDirections, Operation.GetSubSolutions 0]
        = some ⟨3, 4, 3, [1, 2]⟩) ∧
    Constraint.SameDimensions ⟨3, 4, 3, [1, 2]⟩ ⟨3, 4, 3, [1, 2]⟩ :=
  ⟨⟨by decide, by decide, by decide⟩,
    (Constraint.dimensions_fixed_between_Initialize Constraint.fresh
      ⟨3, 4, 3, [1, 2]⟩ 3 [1, 2] [Double.one, Double.one, Double.one, Double.one]
      (by decide)).1
      [Operation.SetWeights [Double.one],
        Operation.SetSubSolutionWeights [[Double.one], [Double.two]],
        Operation.PrepareIteration true 2 false, Operation.GetTimings [] Double.one,
        Operation.NDirections, Operation.GetSubSolutions 0]
      ⟨3, 4, 3, [1, 2]⟩ (by decide) (by decide)⟩

/-! ## When `Initialize` succeeds, and what its result depends on -/

theorem UINT32_MODULUS_eq : UINT32_MODULUS = 2 ^ 32 := by
  decide

/-- C14: with assertions enabled, `Initialize` succeeds if and only if
`n_antennas` is not zero, `solutions_per_direction` and `frequencies` are not
empty, and the sum of the entries of `solutions_per_direction` modulo `2^32`
is not zero.  A list whose sum is a multiple of `2^32`, such as
`[2^31, 2^31]`, is rejected; on success `NSubSolutions()` is that sum modulo
`2^32`. -/
theorem Constraint.Initialize_succeeds_iff (c : Constraint) (n_antennas : Nat)
    (solutions_per_direction : List Nat) (frequencies : List Double) :
    ((∃ c' : Constraint,
          c.Initialize n_antennas solutions_per_direction frequencies = some c') ↔
        n_antennas ≠ 0 ∧ solutions_per_direction ≠ [] ∧ frequencies ≠ [] ∧
          solutions_per_direction.sum % 2 ^ 32 ≠ 0) ∧
      (∀ c' : Constraint,
        c.Initialize n_antennas solutions_per_direction frequencies = some c' →
        c'.NSubSolutions = solutions_per_direction.sum % 2 ^ 32) ∧
      (∀ k : Nat, solutions_per_direction.sum = k * 2 ^ 32 →
        c.Initialize n_antennas solutions_per_direction frequencies = none) ∧
      c.Initialize n_antennas [2 ^ 31, 2 ^ 31] frequencies = none := by
  have hacc : ∀ xs : List Nat, accumulate xs 0 = xs.sum % 2 ^ 32 := by
    intro xs
    rw [accumulate_zero, UINT32_MODULUS_eq]
  have hzero : ∀ xs : List Nat, accumulate xs 0 = 0 →
      c.Initialize n_antennas xs frequencies = none := by
    intro xs hz
    unfold Constraint.Initialize
    simp [hz]
  refine ⟨⟨?_, ?_⟩, ?_, ?_, ?_⟩
  · rintro ⟨c', h⟩
    obtain ⟨hn, hs, hf, ha, -⟩ := Constraint.Initialize_eq_some c c' _ _ _ h
    exact ⟨hn, hs, hf, by rw [← hacc]; exact ha⟩
  · rintro ⟨hn, hs, hf, ha⟩
    have ha' : accumulate solutions_per_direction 0 ≠ 0 := by
      rw [hacc]; exact ha
    have hs' : solutions_per_direction.isEmpty = false := by
      cases solutions_per_direction with
      | nil => exact absurd rfl hs
      | cons _ _ => rfl
    have hf' : frequencies.isEmpty = false := by
      cases frequencies with
      | nil => exact absurd rfl hf
      | cons _ _ => rfl
    refine ⟨⟨n_antennas, frequencies.length, accumulate solutions_per_direction 0,
      solutions_per_direction⟩, ?_⟩
    unfold Constraint.Initialize
    simp only [hn, hs', hf', ha', if_false, Bool.false_eq_true]
  · intro c' h
    obtain ⟨-, -, -, -, rfl⟩ := Constraint.Initialize_eq_some c c' _ _ _ h
    exact hacc _
  · intro k hk
    apply hzero
    rw [hacc, hk, Nat.mul_mod_left]
  · apply hzero
    decide

/-- Two directions with `4294967295` and `3` sub-solutions: the call succeeds
and `NSubSolutions()` is `2`. -/
theorem Constraint.Initialize_succeeds_iff_witness :
    Constraint.fresh.Initialize 1 [4294967295, 3] [Double.one]
        = some ⟨1, 1, 2, [4294967295, 3]⟩ ∧
      Constraint.NSubSolutions ⟨1, 1, 2, [4294967295, 3]⟩
        = [4294967295, 3].sum % 2 ^ 32 :=
  ⟨by decide,
    (Constraint.Initialize_succeeds_iff Constraint.fresh 1 [4294967295, 3]
      [Double.one]).2.1 ⟨1, 1, 2, [4294967295, 3]⟩ (by decide)⟩

/-- C15: two successful calls of `Initialize` with the same `n_antennas`, the
same `solutions_per_direction` and frequency lists of the same length, made on
any two objects and with any frequency values, leave the same `NAntennas`,
`NDirections`, `NSubSolutions`, `NChannelBlocks` and `GetSubSolutions(d)` for
every `d`. -/
theorem Constraint.Initialize_depends_only_on_dimensions (c1 c2 a b : Constraint)
    (n_antennas : Nat) (solutions_per_direction : List Nat)
    (frequencies1 frequencies2 : List Double)
    (hlen : frequencies1.length = frequencies2.length)
    (h1 : c1.Initialize n_antennas solutions_per_direction frequencies1 = some a)
    (h2 : c2.Initialize n_antennas solutions_per_direction frequencies2 = some b) :
    a.NAntennas = b.NAntennas ∧ a.NDirections = b.NDirections ∧
      a.NSubSolutions = b.NSubSolutions ∧ a.NChannelBlocks = b.NChannelBlocks ∧
      ∀ d : Nat, a.GetSubSolutions d = b.GetSubSolutions d := by
  obtain ⟨-, -, -, -, rfl⟩ := Constraint.Initialize_eq_some c1 a _ _ _ h1
  obtain ⟨-, -, -, -, rfl⟩ := Constraint.Initialize_eq_some c2 b _ _ _ h2
  exact ⟨rfl, rfl, rfl, hlen, fun _ => rfl⟩

/-- A fresh object and an object that already holds other dimensions, given
two different lists of four frequencies. -/
theorem Constraint.Initialize_depends_only_on_dimensions_witness :
    ([Double.one, Double.one, Double.one, Double.one].length
          = [Double.two, Double.one, Double.two, Double.two].length ∧
      Constraint.fresh.Initialize 3 [1, 2]
          [Double.one, Double.one, Double.one, Double.one]
        = some ⟨3, 4, 3, [1, 2]⟩ ∧
      Constraint.Initialize ⟨5, 1, 4, [4]⟩ 3 [1, 2]
          [Double.two, Double.one, Double.two, Double.two]
        = some ⟨3, 4, 3, [1, 2]⟩) ∧
    (Constraint.NAntennas ⟨3, 4, 3, [1, 2]⟩ = Constraint.NAntennas ⟨3, 4, 3, [1, 2]⟩ ∧
      Constraint.NDirections ⟨3, 4, 3, [1, 2]⟩
        = Constraint.NDirections ⟨3, 4, 3, [1, 2]⟩ ∧
      Constraint.NSubSolutions ⟨3, 4, 3, [1, 2]⟩
        = Constraint.NSubSolutions ⟨3, 4, 3, [1, 2]⟩ ∧
      Constraint.NChannelBlocks ⟨3, 4, 3, [1, 2]⟩
        = Constraint.NChannelBlocks ⟨3, 4, 3, [1, 2]⟩ ∧
      ∀ d : Nat, Constraint.GetSubSolutions ⟨3, 4, 3, [1, 2]⟩ d
        = Constraint.GetSubSolutions ⟨3, 4, 3, [1, 2]⟩ d) :=
  ⟨⟨by decide, by decide, by decide⟩,
    Constraint.Initialize_depends_only_on_dimensions Constraint.fresh ⟨5, 1, 4, [4]⟩
      ⟨3, 4, 3, [1, 2]⟩ ⟨3, 4, 3, [1, 2]⟩ 3 [1, 2]
      [Double.one, Double.one, Double.one, Double.one]
      [Double.two, Double.one, Double.two, Double.two]
      (by decide) (by decide) (by decide)⟩

end ddecal
end dp3
